import Mathlib

/- Verification of the TECO SSP overtime-calculator (v2.0): a shallow embedding of
   the attendance pagination walk, tolerant table extraction, deduplication and
   overtime computation of `main.py`, and of the status-table parsing of
   `src/services/overtime_status_service.py`.  Machine reals (Python floats) are
   modelled by exact rationals; Python `round(x, 1)` is modelled as the ideal
   round-half-to-even at one decimal; `int(x)` as truncation toward zero.  Python
   `str.strip()` is modelled as trimming ASCII whitespace. -/

set_option autoImplicit false

/- ------------------------------------------------------------------ -/
/- Basic character and string utilities mirroring the Python string
   operations used by the source. -/

/-- Python `s.split(sep)` for a one-character separator, on character lists. -/
def splitOnChar (sep : Char) : List Char → List (List Char)
  | [] => [[]]
  | c :: cs =>
    match splitOnChar sep cs with
    | [] => [[]]
    | g :: gs => if c = sep then [] :: g :: gs else (c :: g) :: gs

/-- Numeric value of a list of decimal digit characters (Python `int(...)`). -/
def digitsVal (l : List Char) : Nat :=
  l.foldl (fun a c => a * 10 + (c.toNat - 48)) 0

/-- All characters are ASCII decimal digits (and, combined with nonemptiness,
    Python `str.isdigit()` on the strings this program meets). -/
def allDigits (l : List Char) : Bool :=
  l.all (·.isDigit)

/-- Leading characters drop of whitespace. -/
def trimLeftChars (l : List Char) : List Char :=
  l.dropWhile (·.isWhitespace)

/-- Trailing whitespace removal. -/
def trimRightChars (l : List Char) : List Char :=
  ((l.reverse.dropWhile (·.isWhitespace))).reverse

/-- Python `s.strip()` (modulo exotic Unicode whitespace). -/
def strTrim (s : String) : String :=
  String.mk (trimRightChars (trimLeftChars s.toList))

/-- Whether `small` is a prefix of `big` (character lists). -/
def isPrefixOfChars : List Char → List Char → Bool
  | [], _ => true
  | _ :: _, [] => false
  | a :: as, b :: bs => a == b && isPrefixOfChars as bs

/-- Whether `n` occurs as a contiguous run inside `l`. -/
def containsSubAux (n : List Char) : List Char → Bool
  | [] => isPrefixOfChars n []
  | c :: cs => isPrefixOfChars n (c :: cs) || containsSubAux n cs

/-- Python `needle in hay` substring test; also models a BeautifulSoup
    `re.compile('.*needle.*')` attribute matcher (regex search = containment). -/
def containsSub (hay needle : String) : Bool :=
  containsSubAux needle.toList hay.toList

/-- Python `' '.join(classes)`. -/
def joinStrings (sep : String) : List String → String
  | [] => ""
  | [s] => s
  | s :: rest => s ++ sep ++ joinStrings sep rest

/- ------------------------------------------------------------------ -/
/- Time and date parsing: `datetime.strptime(f"{date} {time}", "%Y/%m/%d %H:%M:%S")`
   from main.py lines 389-393.  The combined pattern is the concatenation of the
   date pattern, one-or-more whitespace, and the time pattern, with the value
   ranges validated by the datetime constructor; we parse the two halves
   separately (the time string was already stripped by the caller, and the date
   may carry trailing whitespace absorbed by the `\s+` separator). -/

/-- A 1-or-2 digit field with an upper value bound (strptime `%H`/`%m`-style
    field followed by the datetime constructor's range check). -/
def parseField12 (l : List Char) (hi : Nat) : Option Nat :=
  if l ≠ [] ∧ l.length ≤ 2 ∧ allDigits l = true then
    let v := digitsVal l
    if v ≤ hi then some v else none
  else none

/-- strptime `%H:%M:%S`, returning seconds since midnight
    (hour 0-23, minute 0-59, second 0-59). -/
def parseTime (s : String) : Option ℤ :=
  match splitOnChar ':' s.toList with
  | [h, m, sec] => do
    let hv ← parseField12 h 23
    let mv ← parseField12 m 59
    let sv ← parseField12 sec 59
    pure ((hv * 3600 + mv * 60 + sv : Nat) : ℤ)
  | _ => none

/-- Gregorian leap year, as validated by Python `datetime`. -/
def isLeapYear (y : Nat) : Bool :=
  y % 4 = 0 && (y % 100 ≠ 0 || y % 400 = 0)

/-- Days in a month, as validated by Python `datetime`. -/
def daysInMonth (y m : Nat) : Nat :=
  if m = 2 then (if isLeapYear y then 29 else 28)
  else if m = 4 ∨ m = 6 ∨ m = 9 ∨ m = 11 then 30
  else 31

/-- strptime `%Y/%m/%d` (4-digit year ≥ 1, month 1-12, day valid for the
    month), tolerating trailing whitespace (absorbed by the `\s+` that the
    format's literal blank turns into). -/
def parseDate (s : String) : Option (Nat × Nat × Nat) :=
  match splitOnChar '/' (trimRightChars s.toList) with
  | [y, m, d] =>
    if y.length = 4 ∧ allDigits y = true ∧
       m ≠ [] ∧ m.length ≤ 2 ∧ allDigits m = true ∧
       d ≠ [] ∧ d.length ≤ 2 ∧ allDigits d = true then
      let yv := digitsVal y
      let mv := digitsVal m
      let dv := digitsVal d
      if 1 ≤ yv ∧ 1 ≤ mv ∧ mv ≤ 12 ∧ 1 ≤ dv ∧ dv ≤ daysInMonth yv mv then
        some (yv, mv, dv)
      else none
    else none
  | _ => none

/- ------------------------------------------------------------------ -/
/- Rounding, truncation and clamping used by `calculate_overtime`. -/

/-- Round-half-to-even of a rational to an integer (Python `round` semantics on
    the ideal value). -/
def rhe (q : ℚ) : ℤ :=
  if q - ⌊q⌋ < 1 / 2 then ⌊q⌋
  else if (1 : ℚ) / 2 < q - ⌊q⌋ then ⌊q⌋ + 1
  else if ⌊q⌋ % 2 = 0 then ⌊q⌋ else ⌊q⌋ + 1

/-- Python `round(q, 1)`. -/
def roundPy1 (q : ℚ) : ℚ :=
  ((rhe (10 * q) : ℤ) : ℚ) / 10

/-- Python `int(q)` on a real value: truncation toward zero. -/
def truncQ (q : ℚ) : ℤ :=
  if 0 ≤ q then ⌊q⌋ else ⌈q⌉

/- ------------------------------------------------------------------ -/
/- Overtime calculator (main.py `calculate_overtime`, lines 362-443), with the
   policy constants of config.py. -/

def LUNCH_BREAK : ℚ := 70

def WORK_HOURS : ℚ := 480

def REST_TIME : ℚ := 30

/-- `09:00:00` in seconds since midnight (the `standard_start` of line 393). -/
def standardStartSec : ℤ := 9 * 3600

/-- A row of the attendance grid as the extractor emits it:
    `{'date': ..., 'time_range': ...}` (spec: RawPunchRecord). -/
structure RawPunchRecord where
  date : String
  time_range : String
deriving DecidableEq

/-- One result row of `calculate_overtime` (main.py lines 416-422). -/
structure OvertimeRow where
  date : String
  clock_in : String
  clock_out : String
  total_minutes : ℤ
  overtime_hours : ℚ
deriving DecidableEq

/-- main.py lines 392-398: if the clock-in is later than 09:00, count from
    09:00 instead. -/
def effectiveStart (start_sec : ℤ) : ℤ :=
  if start_sec > standardStartSec then standardStartSec else start_sec

/-- main.py line 401: `(end_time - actual_start).total_seconds() / 60`. -/
def totalMinutesQ (actual_start clock_out : ℤ) : ℚ :=
  ((clock_out - actual_start : ℤ) : ℚ) / 60

/-- main.py line 405: total minus lunch break, standard work and rest. -/
def overtimeMinutesQ (total : ℚ) : ℚ :=
  total - LUNCH_BREAK - WORK_HOURS - REST_TIME

/-- main.py lines 411-414: clamp the rounded hours into [0, 4]. -/
def clampOvertime (x : ℚ) : ℚ :=
  if x < 0 then 0 else if x > 4 then 4 else x

/-- main.py lines 408-414: hours = round(minutes / 60, 1), clamped. -/
def overtimeHoursQ (om : ℚ) : ℚ :=
  clampOvertime (roundPy1 (om / 60))

/-- main.py line 380: `time_range.split('~')`. -/
def splitTimeRange (s : String) : List String :=
  (splitOnChar '~' s.toList).map String.mk

/-- The loop body of `calculate_overtime` for one record (main.py lines
    374-431): `none` models the `continue` taken on a malformed time range or a
    strptime `ValueError`. -/
def calc_overtime_row (record : RawPunchRecord) : Option OvertimeRow :=
  match splitTimeRange record.time_range with
  | [t0, t1] =>
    let start_str := strTrim t0
    let end_str := strTrim t1
    match parseDate record.date, parseTime start_str, parseTime end_str with
    | some _, some start_sec, some end_sec =>
      let actual_start := effectiveStart start_sec
      let total := totalMinutesQ actual_start end_sec
      let oh := overtimeHoursQ (overtimeMinutesQ total)
      some { date := record.date, clock_in := start_str, clock_out := end_str,
             total_minutes := truncQ total, overtime_hours := oh }
    | _, _, _ => none
  | _ => none

/-- main.py `calculate_overtime`: the `results` list (the subsequent DataFrame
    step only re-sorts these rows by date descending for display). -/
def calculate_overtime (records : List RawPunchRecord) : List OvertimeRow :=
  records.filterMap calc_overtime_row

/- ------------------------------------------------------------------ -/
/- HTML document model, at the granularity of the BeautifulSoup queries
   performed by main.py. -/

/-- A `<span>` with its `id` attribute and text content. -/
structure SpanNode where
  id : String
  text : String
deriving DecidableEq

/-- A `<td>` cell: the spans it contains, in document order. -/
structure CellNode where
  spans : List SpanNode
deriving DecidableEq

/-- A `<tr>`: whether it contains a `<th>`, its class list, the texts of its
    `<a>` descendants, and its `<td>` cells. -/
structure RowNode where
  hasTh : Bool
  classes : List String
  anchors : List String
  cells : List CellNode
deriving DecidableEq

/-- A `<table>` with the attributes main.py matches on; `text` stands for the
    `get_text()` of the whole table (the model does not carry raw text nodes,
    so the concatenated text is stored directly). -/
structure TableNode where
  id : Option String
  cellspacing : Option String
  cellpadding : Option String
  rules : Option String
  rows : List RowNode
  text : String
deriving DecidableEq

/-- A parsed page: whether a `div#tabs-2` exists, every `<table>` in document
    order flagged by whether it sits inside that div, and the three hidden
    ASP.NET form fields. -/
structure SoupDoc where
  hasTabs2 : Bool
  tables : List (Bool × TableNode)
  viewstate : Option String
  viewstate_generator : Option String
  event_validation : Option String
deriving DecidableEq

/-- Matcher (a): exact id `ContentPlaceHolder1_gvWeb012` (main.py line 205). -/
def tableIdExact (t : TableNode) : Bool :=
  t.id == some "ContentPlaceHolder1_gvWeb012"

/-- Matcher (b): id matching `.*gvWeb012.*` (main.py line 207). -/
def tableIdLoose (t : TableNode) : Bool :=
  match t.id with
  | some i => containsSub i "gvWeb012"
  | none => false

/-- Matcher (c): the fixed structural attributes (main.py line 209). -/
def tableAttrs (t : TableNode) : Bool :=
  t.cellspacing == some "0" && t.cellpadding == some "3" && t.rules == some "rows"

/-- Matcher (d): table text containing the column-header phrase 出勤日期
    (main.py lines 223-227). -/
def tableContent (t : TableNode) : Bool :=
  containsSub t.text "出勤日期"

/-- The search scope of main.py lines 195-202: inside `div#tabs-2` when it
    exists, the whole document otherwise. -/
def searchTables (soup : SoupDoc) : List TableNode :=
  if soup.hasTabs2 then (soup.tables.filter (·.1)).map (·.2)
  else soup.tables.map (·.2)

/-- All tables of the document (`soup.find_all('table')`). -/
def allTables (soup : SoupDoc) : List TableNode :=
  soup.tables.map (·.2)

/-- The matcher chain of `_parse_attendance_table` (main.py lines 204-230):
    (a), (b), (c) over the search scope, then (d) over the whole document. -/
def find_attendance_table (soup : SoupDoc) : Option TableNode :=
  match (searchTables soup).find? tableIdExact with
  | some t => some t
  | none =>
    match (searchTables soup).find? tableIdLoose with
    | some t => some t
    | none =>
      match (searchTables soup).find? tableAttrs with
      | some t => some t
      | none => (allTables soup).find? tableContent

/-- main.py lines 238-249: keep rows without `<th>`, not classed `PagerStyle`,
    whose joined class string contains `RowStyle` or `AlternatingRowStyle`. -/
def isDataRow (r : RowNode) : Bool :=
  !r.hasTh && !(r.classes.contains "PagerStyle") &&
  (containsSub (joinStrings " " r.classes) "RowStyle" ||
   containsSub (joinStrings " " r.classes) "AlternatingRowStyle")

/-- Span id containing `needle` (the `re.compile('.*needle.*')` id matchers of
    main.py lines 264 and 277). -/
def spanIdHas (needle : String) (sp : SpanNode) : Bool :=
  containsSub sp.id needle

/-- `re.match(r'\d{4}/\d{1,2}/\d{1,2}', text)` (a prefix match, greedy with
    backtracking) restricted to what follows the first slash. -/
def monthDayShape : List Char → Bool
  | m1 :: m2 :: rest =>
    (m1.isDigit && m2.isDigit &&
      (match rest with
       | s :: r => s = '/' && (match r with | c :: _ => c.isDigit | [] => false)
       | [] => false)) ||
    (m1.isDigit && m2 = '/' && (match rest with | c :: _ => c.isDigit | [] => false))
  | _ => false

/-- `re.match(r'\d{4}/\d{1,2}/\d{1,2}', text)` as a whole: four digits, a
    slash, then a 1-2 digit month, a slash and at least one day digit. -/
def dateShape (s : String) : Bool :=
  match s.toList with
  | y1 :: y2 :: y3 :: y4 :: sl :: rest =>
    y1.isDigit && y2.isDigit && y3.isDigit && y4.isDigit && sl = '/' && monthDayShape rest
  | _ => false

/-- main.py lines 264-272: primary id-based date span, then the date-shaped
    fallback over all spans of the first cell. -/
def dateSpanOf (c : CellNode) : Option SpanNode :=
  match c.spans.find? (spanIdHas "lblWork_Date") with
  | some sp => some sp
  | none => c.spans.find? (fun sp => dateShape (strTrim sp.text))

/-- main.py lines 277-285: primary id-based time span, then the fallback span
    whose stripped text contains both `~` and `:`. -/
def timeSpanOf (c : CellNode) : Option SpanNode :=
  match c.spans.find? (spanIdHas "lblCard_Time") with
  | some sp => some sp
  | none =>
    c.spans.find? (fun sp =>
      (strTrim sp.text).toList.contains '~' && (strTrim sp.text).toList.contains ':')

/-- main.py line 290: strip, remove NBSP / ideographic space / blanks, strip. -/
def cleanTimeStr (s : String) : String :=
  strTrim (String.mk ((strTrim s).toList.filter
    (fun c => c != ' ' && c != ' ' && c != '　')))

/-- The per-row body of `_parse_attendance_table` (main.py lines 253-299):
    skip rows with fewer than three cells, extract date and time-range from the
    first cell, accept only when both are nonempty and the time contains `~`. -/
def extract_row (row : RowNode) : Option RawPunchRecord :=
  if row.cells.length < 3 then none
  else
    match row.cells with
    | [] => none
    | c0 :: _ =>
      let date_str := match dateSpanOf c0 with
        | some sp => strTrim sp.text
        | none => ""
      let time_str := cleanTimeStr (match timeSpanOf c0 with
        | some sp => strTrim sp.text
        | none => "")
      if date_str ≠ "" ∧ time_str ≠ "" ∧ time_str.toList.contains '~' = true then
        some { date := date_str, time_range := time_str }
      else none

/-- `_parse_attendance_table` (main.py lines 190-306): locate the grid, filter
    the data rows, extract a record per row; an empty list when no matcher
    succeeds. -/
def parse_attendance_table (soup : SoupDoc) : List RawPunchRecord :=
  match find_attendance_table soup with
  | none => []
  | some t => (t.rows.filter isDataRow).filterMap extract_row

/-- `_has_next_page`'s table lookup (main.py lines 311-313): matchers (a) and
    (b) over the whole document. -/
def find_table_by_id (soup : SoupDoc) : Option TableNode :=
  match (allTables soup).find? tableIdExact with
  | some t => some t
  | none => (allTables soup).find? tableIdLoose

/-- `_has_next_page` (main.py lines 308-328): the grid's `PagerStyle` row must
    hold a link whose stripped text is the digits of `current_page + 1`. -/
def has_next_page (soup : SoupDoc) (current_page : Nat) : Bool :=
  match find_table_by_id soup with
  | none => false
  | some t =>
    match t.rows.find? (fun r => r.classes.contains "PagerStyle") with
    | none => false
    | some pager =>
      pager.anchors.any (fun a =>
        let s := (strTrim a).toList
        !s.isEmpty && allDigits s && digitsVal s == current_page + 1)

/-- The postback body of `_goto_next_page` (main.py lines 341-347). -/
structure PostData where
  viewstate : String
  viewstate_generator : String
  event_validation : String
  event_target : String
  event_argument : String
deriving DecidableEq

/-- `_goto_next_page` (main.py lines 330-360): abort (`None`) when the
    `__VIEWSTATE` field is missing, otherwise post the continuation token (the
    generator and validation fields defaulting to empty strings) with the
    `Page$n` directive; `server` abstracts the portal's response, `none`
    standing for a failed request. -/
def goto_next_page (soup : SoupDoc) (server : PostData → Option SoupDoc)
    (page_num : Nat) : Option SoupDoc :=
  match soup.viewstate with
  | none => none
  | some vs =>
    server { viewstate := vs,
             viewstate_generator := soup.viewstate_generator.getD "",
             event_validation := soup.event_validation.getD "",
             event_target := "ctl00$ContentPlaceHolder1$gvWeb012",
             event_argument := "Page$" ++ toString page_num }

/-- The composite dedup key of main.py line 157: `date + "_" + time_range`. -/
def recordKey (r : RawPunchRecord) : String :=
  r.date ++ "_" ++ r.time_range

/-- The dedup accumulation of main.py lines 154-161: insert a record only when
    its key is unseen, preserving first-occurrence order. -/
def dedupStep : List String → List RawPunchRecord → List RawPunchRecord →
    List String × List RawPunchRecord
  | seen, acc, [] => (seen, acc)
  | seen, acc, r :: rs =>
    if recordKey r ∈ seen then dedupStep seen acc rs
    else dedupStep (recordKey r :: seen) (acc ++ [r]) rs

/-- Outcome of one pagination walk: the accumulated records, the number of
    page documents fetched (the initial GET plus each postback), and the
    number of pages processed by the loop body. -/
structure WalkResult where
  records : List RawPunchRecord
  fetches : Nat
  processed : Nat
deriving DecidableEq

/-- The `while current_page <= max_pages` loop of `get_attendance_data`
    (main.py lines 147-181), with `fuel = max_pages + 1 - current_page` kept in
    sync with `cur` so that fuel 0 is exactly the loop guard failing: parse and
    dedup the current page, stop if no next-page link, attempt the postback
    (stopping on failure), else continue on the response. -/
def walkAux (server : PostData → Option SoupDoc) :
    Nat → SoupDoc → Nat → List String → List RawPunchRecord → Nat → Nat → WalkResult
  | 0, _, _, _, acc, f, p => ⟨acc, f, p⟩
  | fuel + 1, soup, cur, seen, acc, f, p =>
    let sa := dedupStep seen acc (parse_attendance_table soup)
    if has_next_page soup cur then
      match goto_next_page soup server (cur + 1) with
      | none => ⟨sa.2, f, p + 1⟩
      | some next => walkAux server fuel next (cur + 1) sa.1 sa.2 (f + 1) (p + 1)
    else ⟨sa.2, f, p + 1⟩

/-- `get_attendance_data` (main.py lines 124-188), starting from the already
    fetched first page (one fetch) at `current_page = 1` with empty seen-set
    and accumulator. -/
def get_attendance_data (server : PostData → Option SoupDoc) (max_pages : Nat)
    (first : SoupDoc) : WalkResult :=
  walkAux server max_pages first 1 [] [] 1 0

/- ------------------------------------------------------------------ -/
/- Status pager (src/services/overtime_status_service.py). -/

/-- Modelled from the spec: the SubmittedStatusRecord data model (the dataclass
    module `models/overtime_submission.py` is not among the sources; the field
    set matches both the spec's data model and the constructor call of
    `_parse_status_table`). -/
structure SubmittedRecord where
  date : String
  status : String
  overtime_minutes : ℚ
  change_minutes : ℚ
deriving DecidableEq

/-- A `<tr>` of the status grid: its spans with ids. -/
structure StatusRowNode where
  spans : List SpanNode
deriving DecidableEq

/-- A status-page `<table>`. -/
structure StatusTableNode where
  id : String
  rows : List StatusRowNode
deriving DecidableEq

/-- A status page document. -/
structure StatusSoup where
  tables : List StatusTableNode
deriving DecidableEq

/-- BeautifulSoup `row.find('span', {'id': sid})`: exact id match. -/
def findSpanExact (row : StatusRowNode) (sid : String) : Option SpanNode :=
  row.spans.find? (fun sp => sp.id == sid)

/-- The per-index span id of the date field (service line 94). -/
def statusDateId (i : Nat) : String :=
  "ContentPlaceHolder1_gvFlow211_lblOT_Date_" ++ toString i

/-- The per-index span id of the status field (service line 101). -/
def statusFlagId (i : Nat) : String :=
  "ContentPlaceHolder1_gvFlow211_lblProcess_Flag_Text_" ++ toString i

/-- The per-index span id of the overtime-minutes field (service line 105). -/
def statusOtMinuteId (i : Nat) : String :=
  "ContentPlaceHolder1_gvFlow211_lblOT_Minute_" ++ toString i

/-- The per-index span id of the change-minutes field (service line 109). -/
def statusChangeMinuteId (i : Nat) : String :=
  "ContentPlaceHolder1_gvFlow211_lblChange_Minute_" ++ toString i

/-- The per-row body of `_parse_status_table` (service lines 91-125): skip the
    row when the date span is missing; default a missing status span to 未知
    and each missing or empty minutes span to 0.0; `pf` abstracts Python
    `float(...)`, whose failure (`none`) raises and skips the row. -/
def parse_status_row (pf : String → Option ℚ) (i : Nat) (row : StatusRowNode) :
    Option (String × SubmittedRecord) :=
  match findSpanExact row (statusDateId i) with
  | none => none
  | some ds =>
    let date := strTrim ds.text
    let status := match findSpanExact row (statusFlagId i) with
      | some sp => strTrim sp.text
      | none => "未知"
    let otv : Option ℚ := match findSpanExact row (statusOtMinuteId i) with
      | none => some 0
      | some sp => if strTrim sp.text = "" then some 0 else pf (strTrim sp.text)
    let chv : Option ℚ := match findSpanExact row (statusChangeMinuteId i) with
      | none => some 0
      | some sp => if strTrim sp.text = "" then some 0 else pf (strTrim sp.text)
    match otv, chv with
    | some o, some c =>
      some (date, { date := date, status := status,
                    overtime_minutes := o, change_minutes := c })
    | _, _ => none

/-- Python `records[date] = record` on an insertion-ordered dict, modelled as
    an association list: overwrite in place or append. -/
def upsert (m : List (String × SubmittedRecord)) (k : String) (v : SubmittedRecord) :
    List (String × SubmittedRecord) :=
  if m.any (fun p => p.1 == k) then
    m.map (fun p => if p.1 == k then (k, v) else p)
  else m ++ [(k, v)]

/-- `_parse_status_table` (service lines 70-131): find the `gvFlow211` table
    exactly by id, enumerate the rows after the header, and accumulate the
    parsed records keyed by date. -/
def parse_status_table (pf : String → Option ℚ) (soup : StatusSoup) :
    List (String × SubmittedRecord) :=
  match soup.tables.find? (fun t => t.id == "ContentPlaceHolder1_gvFlow211") with
  | none => []
  | some t =>
    ((t.rows.drop 1).enum).foldl
      (fun m ir =>
        match parse_status_row pf ir.1 ir.2 with
        | none => m
        | some dv => upsert m dv.1 dv.2) []

/- ------------------------------------------------------------------ -/
/- Concrete sample pages used by the closed theorems below. -/

/-- A normal data row carrying a date span and a time-range span plus two
    further cells (as the real grid renders). -/
def dataRowOf (d t : String) : RowNode :=
  { hasTh := false, classes := ["RowStyle"], anchors := [],
    cells := [{ spans := [{ id := "ContentPlaceHolder1_gvWeb012_lblWork_Date_0", text := d },
                          { id := "ContentPlaceHolder1_gvWeb012_lblCard_Time_0", text := t }] },
              { spans := [] }, { spans := [] }] }

/-- A pager row with the given link labels. -/
def pagerRowOf (labels : List String) : RowNode :=
  { hasTh := false, classes := ["PagerStyle"], anchors := labels, cells := [] }

/-- The attendance grid with the given rows. -/
def gridOf (rows : List RowNode) : TableNode :=
  { id := some "ContentPlaceHolder1_gvWeb012", cellspacing := none,
    cellpadding := none, rules := none, rows := rows, text := "" }

/-- A page holding just the attendance grid and the given hidden fields. -/
def pageOf (rows : List RowNode) (vs gen ev : Option String) : SoupDoc :=
  { hasTabs2 := false, tables := [(false, gridOf rows)],
    viewstate := vs, viewstate_generator := gen, event_validation := ev }

/-- A page with no tables at all (every grid matcher fails). -/
def tablelessPage : SoupDoc :=
  { hasTabs2 := false, tables := [], viewstate := some "vs",
    viewstate_generator := some "g", event_validation := some "e" }

/-- Sample record of 2024/03/01. -/
def recMar1 : RawPunchRecord := ⟨"2024/03/01", "08:30:00~19:50:00"⟩

/-- Sample record of 2024/03/02. -/
def recMar2 : RawPunchRecord := ⟨"2024/03/02", "08:30:00~19:50:00"⟩

/-- Sample record of 2024/03/03. -/
def recMar3 : RawPunchRecord := ⟨"2024/03/03", "08:30:00~19:50:00"⟩

/-- A page whose pager (erroneously) always offers pages 2 and 3. -/
def c3soup : SoupDoc :=
  pageOf [dataRowOf "2024/03/01" "08:30:00~19:50:00", pagerRowOf ["2", "3"]]
    (some "v") none none

/-- A server that always serves `c3soup` again. -/
def c3server : PostData → Option SoupDoc := fun _ => some c3soup

/-- Page 1 of the C4 scenario: one record, a link to page 2, full token. -/
def c4page1 : SoupDoc :=
  pageOf [dataRowOf "2024/03/01" "08:30:00~19:50:00", pagerRowOf ["2"]]
    (some "v") (some "g") (some "e")

/-- Page 3 of the C4 scenario: a further record that the walk never reaches. -/
def c4page3 : SoupDoc :=
  pageOf [dataRowOf "2024/03/03" "08:30:00~19:50:00"] (some "v") (some "g") (some "e")

/-- The C4 server: page 2 renders with no grid at all, page 3 with data. -/
def c4server : PostData → Option SoupDoc := fun pd =>
  if pd.event_argument = "Page$2" then some tablelessPage
  else if pd.event_argument = "Page$3" then some c4page3
  else none

/-- Page 1 of the C6 scenario: viewstate present, generator and validation
    fields missing, a link to page 2. -/
def c6page1 : SoupDoc :=
  pageOf [dataRowOf "2024/03/01" "08:30:00~19:50:00", pagerRowOf ["2"]]
    (some "vs") none none

/-- Page 2 of the C6 scenario: more data, no further link. -/
def c6page2 : SoupDoc :=
  pageOf [dataRowOf "2024/03/02" "08:30:00~19:50:00"] (some "vs") none none

/-- The C6 server. -/
def c6server : PostData → Option SoupDoc := fun pd =>
  if pd.event_argument = "Page$2" then some c6page2 else none

/-- A page with data and a next-page link but no viewstate field. -/
def tokenlessPage : SoupDoc :=
  pageOf [dataRowOf "2024/03/04" "08:30:00~19:50:00", pagerRowOf ["2"]] none none none

/-- Page 1 of the C7 scenario. -/
def c7page1 : SoupDoc :=
  pageOf [dataRowOf "2024/03/01" "08:30:00~19:50:00", pagerRowOf ["2"]]
    (some "v") none none

/-- Page 2 of the C7 scenario: exactly the records of page 1 (a dedup-suppressed
    repeat) and a link to page 3. -/
def c7page2 : SoupDoc :=
  pageOf [dataRowOf "2024/03/01" "08:30:00~19:50:00", pagerRowOf ["3"]]
    (some "v") none none

/-- Page 3 of the C7 scenario: fresh data, no further link. -/
def c7page3 : SoupDoc :=
  pageOf [dataRowOf "2024/03/03" "08:30:00~19:50:00"] (some "v") none none

/-- The C7 server. -/
def c7server : PostData → Option SoupDoc := fun pd =>
  if pd.event_argument = "Page$2" then some c7page2
  else if pd.event_argument = "Page$3" then some c7page3
  else none

/-- A status row carrying only its date span: status and both minutes spans
    are missing. -/
def c8row : StatusRowNode :=
  ⟨[⟨"ContentPlaceHolder1_gvFlow211_lblOT_Date_0", "2024/03/05"⟩]⟩

/-- A status table: a header row followed by `c8row`. -/
def c8table : StatusTableNode :=
  ⟨"ContentPlaceHolder1_gvFlow211", [⟨[]⟩, c8row]⟩

/-- A status page holding `c8table`. -/
def c8soup : StatusSoup := ⟨[c8table]⟩

/-- A first cell with a valid date span and a valid time-range span. -/
def c10cell : CellNode :=
  ⟨[⟨"ContentPlaceHolder1_gvWeb012_lblWork_Date_0", "2024/03/01"⟩,
    ⟨"ContentPlaceHolder1_gvWeb012_lblCard_Time_0", "08:30:00~19:50:00"⟩]⟩

/-- A data row with only two cells, the first carrying valid data. -/
def c10shortRow : RowNode :=
  { hasTh := false, classes := ["RowStyle"], anchors := [], cells := [c10cell, ⟨[]⟩] }

/-- The same data with three cells. -/
def c10fullRow : RowNode :=
  { hasTh := false, classes := ["RowStyle"], anchors := [], cells := [c10cell, ⟨[]⟩, ⟨[]⟩] }

/-- A gvWeb012-id grid carrying only a pager link to page 2 and no
    出勤日期 text. -/
def gapGrid : TableNode :=
  { id := some "ContentPlaceHolder1_gvWeb012", cellspacing := none,
    cellpadding := none, rules := none, rows := [pagerRowOf ["2"]], text := "" }

/-- A page with a tabs-2 div whose gvWeb012-id grid sits outside that div:
    the extractor's div-scoped matchers (a)-(c) and the content matcher (d)
    all fail, yet the next-page check's document-wide id lookup finds the
    grid. -/
def gapPage : SoupDoc :=
  { hasTabs2 := true, tables := [(false, gapGrid)], viewstate := some "v",
    viewstate_generator := none, event_validation := none }

/-- The page after `gapPage`: one record, no further link. -/
def gapNextPage : SoupDoc :=
  pageOf [dataRowOf "2024/03/02" "08:30:00~19:50:00"] (some "v") none none

/-- The server of the `gapPage` walk. -/
def gapServer : PostData → Option SoupDoc := fun pd =>
  if pd.event_argument = "Page$2" then some gapNextPage else none

/- ------------------------------------------------------------------ -/
/- Helper lemmas about the overtime calculator. -/

/-- The clamp of main.py lines 411-414 equals clamping into [0, 4]. -/
theorem clampOvertime_eq_max_min (x : ℚ) : clampOvertime x = max 0 (min 4 x) := by
  rw [clampOvertime]
  split_ifs with h1 h2
  · rw [min_eq_right (by linarith), max_eq_left (by linarith)]
  · rw [min_eq_left (by linarith), max_eq_right (by norm_num)]
  · rw [min_eq_right (by linarith), max_eq_right (by linarith)]

/-- The effective-start branch equals a minimum. -/
theorem effectiveStart_eq_min (st : ℤ) : effectiveStart st = min st standardStartSec := by
  rw [effectiveStart]
  split_ifs with h
  · exact (min_eq_right h.le).symm
  · exact (min_eq_left (not_lt.mp h)).symm

/-- Evaluation of the per-record calculator body on a record whose date and
    both time-range halves parse. -/
theorem calc_row_eq (r : RawPunchRecord) (d : Nat × Nat × Nat) (t0 t1 : String)
    (st en : ℤ) (hd : parseDate r.date = some d)
    (hs : splitTimeRange r.time_range = [t0, t1])
    (h0 : parseTime (strTrim t0) = some st) (h1 : parseTime (strTrim t1) = some en) :
    calc_overtime_row r =
      some { date := r.date, clock_in := strTrim t0, clock_out := strTrim t1,
             total_minutes := truncQ (totalMinutesQ (effectiveStart st) en),
             overtime_hours :=
               overtimeHoursQ (overtimeMinutesQ (totalMinutesQ (effectiveStart st) en)) } := by
  rw [calc_overtime_row, hs]
  simp only [hd, h0, h1]

/-- The rounded hours in the spec's max/min phrasing. -/
theorem overtimeHoursQ_eq (T : ℚ) :
    overtimeHoursQ (overtimeMinutesQ T) =
      max 0 (min 4 (roundPy1 ((T - 70 - 480 - 30) / 60))) := by
  rw [overtimeHoursQ, overtimeMinutesQ, LUNCH_BREAK, WORK_HOURS, REST_TIME,
    clampOvertime_eq_max_min]

/-- Round-half-even is at most one above the floor. -/
theorem rhe_le (q : ℚ) : ((rhe q : ℤ) : ℚ) ≤ q + 1 := by
  have hf := Int.floor_le q
  rw [rhe]
  split_ifs <;> push_cast <;> linarith

/-- Truncation toward zero of a nonpositive rational is nonpositive. -/
theorem truncQ_nonpos {q : ℚ} (h : q ≤ 0) : truncQ q ≤ 0 := by
  rw [truncQ]
  split_ifs with h0
  · have hq : q = 0 := le_antisymm h h0
    simp [hq]
  · exact Int.ceil_le.mpr (by exact_mod_cast h)

/-- Scenario 1 of the spec: 08:30-19:50 on 2024/03/01. -/
theorem calc_scenario1 :
    calc_overtime_row ⟨"2024/03/01", "08:30:00~19:50:00"⟩ =
      some { date := "2024/03/01", clock_in := "08:30:00", clock_out := "19:50:00",
             total_minutes := 680, overtime_hours := 17 / 10 } := by
  have h := calc_row_eq ⟨"2024/03/01", "08:30:00~19:50:00"⟩ (2024, 3, 1)
    "08:30:00" "19:50:00" 30600 71400 (by decide) (by decide) (by decide) (by decide)
  have e1 : effectiveStart 30600 = 30600 := by decide
  have e2 : totalMinutesQ 30600 71400 = 680 := by rw [totalMinutesQ]; norm_num
  have e3 : truncQ (680 : ℚ) = 680 := by
    rw [truncQ, if_pos (by norm_num)]; norm_num
  have e4 : overtimeMinutesQ 680 = 100 := by
    rw [overtimeMinutesQ, LUNCH_BREAK, WORK_HOURS, REST_TIME]; norm_num
  have e5 : ⌊(50 / 3 : ℚ)⌋ = 16 := by norm_num [Int.floor_eq_iff]
  have e6 : roundPy1 (100 / 60) = 17 / 10 := by
    rw [roundPy1, show (10 : ℚ) * (100 / 60) = 50 / 3 by norm_num, rhe, e5,
      if_neg (by norm_num), if_pos (by norm_num)]
    norm_num
  have e7 : overtimeHoursQ 100 = 17 / 10 := by
    rw [overtimeHoursQ, e6, clampOvertime, if_neg (by norm_num), if_neg (by norm_num)]
  have s1 : strTrim "08:30:00" = "08:30:00" := by decide
  have s2 : strTrim "19:50:00" = "19:50:00" := by decide
  rw [h, e1, e2, e3, e4, e7, s1, s2]

/-- Scenario 2 of the spec: 09:30-18:30 on 2024/03/02. -/
theorem calc_scenario2 :
    calc_overtime_row ⟨"2024/03/02", "09:30:00~18:30:00"⟩ =
      some { date := "2024/03/02", clock_in := "09:30:00", clock_out := "18:30:00",
             total_minutes := 570, overtime_hours := 0 } := by
  have h := calc_row_eq ⟨"2024/03/02", "09:30:00~18:30:00"⟩ (2024, 3, 2)
    "09:30:00" "18:30:00" 34200 66600 (by decide) (by decide) (by decide) (by decide)
  have e1 : effectiveStart 34200 = 32400 := by decide
  have e2 : totalMinutesQ 32400 66600 = 570 := by rw [totalMinutesQ]; norm_num
  have e3 : truncQ (570 : ℚ) = 570 := by
    rw [truncQ, if_pos (by norm_num)]; norm_num
  have e4 : overtimeMinutesQ 570 = -10 := by
    rw [overtimeMinutesQ, LUNCH_BREAK, WORK_HOURS, REST_TIME]; norm_num
  have e5 : ⌊(-5 / 3 : ℚ)⌋ = -2 := by norm_num [Int.floor_eq_iff]
  have e6 : roundPy1 (-10 / 60) = -1 / 5 := by
    rw [roundPy1, show (10 : ℚ) * (-10 / 60) = -5 / 3 by norm_num, rhe, e5,
      if_pos (by norm_num)]
    norm_num
  have e7 : overtimeHoursQ (-10) = 0 := by
    rw [overtimeHoursQ, show (-10 : ℚ) / 60 = -10 / 60 by norm_num, e6,
      clampOvertime, if_pos (by norm_num)]
  have s1 : strTrim "09:30:00" = "09:30:00" := by decide
  have s2 : strTrim "18:30:00" = "18:30:00" := by decide
  rw [h, e1, e2, e3, e4, e7, s1, s2]

/- ------------------------------------------------------------------ -/
/- Claims C1, C2, C9: the overtime computation. -/

/-- C1 counterexample: a record whose time range splits into two parseable
    HH:MM:SS times but whose date does not parse (month 99) is skipped by the
    calculator — no row is emitted, contrary to the claim's quantification over
    every record with a parseable time range. -/
theorem C1_counterexample :
    splitTimeRange "08:30:00~19:50:00" = ["08:30:00", "19:50:00"] ∧
    parseTime "08:30:00" = some 30600 ∧ parseTime "19:50:00" = some 71400 ∧
    calculate_overtime [⟨"2024/99/99", "08:30:00~19:50:00"⟩] = [] := by
  refine ⟨by decide, by decide, by decide, by decide⟩

/-- C1 (amended: the record's date must also parse as a valid YYYY/MM/DD
    date): for every such record the calculator emits a row whose
    total_minutes is the truncated minutes from effective_start to clock_out
    and whose overtime_hours is round((total − 70 − 480 − 30) / 60, 1) clamped
    into [0, 4]; scenario 1 gives 680 minutes, overtime 100 minutes and 1.7
    hours, scenario 2 gives 570 minutes, overtime −10 minutes and clamped 0.0
    hours. -/
theorem C1_overtime_formula_and_scenarios :
    (∀ (r : RawPunchRecord) (d : Nat × Nat × Nat) (t0 t1 : String) (st en : ℤ),
      parseDate r.date = some d → splitTimeRange r.time_range = [t0, t1] →
      parseTime (strTrim t0) = some st → parseTime (strTrim t1) = some en →
      calc_overtime_row r =
        some { date := r.date, clock_in := strTrim t0, clock_out := strTrim t1,
               total_minutes := truncQ (totalMinutesQ (effectiveStart st) en),
               overtime_hours := max 0 (min 4 (roundPy1
                 ((totalMinutesQ (effectiveStart st) en - 70 - 480 - 30) / 60))) }) ∧
    calculate_overtime [⟨"2024/03/01", "08:30:00~19:50:00"⟩] =
      [{ date := "2024/03/01", clock_in := "08:30:00", clock_out := "19:50:00",
         total_minutes := 680, overtime_hours := 17 / 10 }] ∧
    overtimeMinutesQ 680 = 100 ∧
    calculate_overtime [⟨"2024/03/02", "09:30:00~18:30:00"⟩] =
      [{ date := "2024/03/02", clock_in := "09:30:00", clock_out := "18:30:00",
         total_minutes := 570, overtime_hours := 0 }] ∧
    overtimeMinutesQ 570 = -10 := by
  refine ⟨?_, ?_, ?_, ?_, ?_⟩
  · intro r d t0 t1 st en hd hs h0 h1
    rw [calc_row_eq r d t0 t1 st en hd hs h0 h1, overtimeHoursQ_eq]
  · simp only [calculate_overtime, List.filterMap_cons, List.filterMap_nil, calc_scenario1]
  · rw [overtimeMinutesQ, LUNCH_BREAK, WORK_HOURS, REST_TIME]; norm_num
  · simp only [calculate_overtime, List.filterMap_cons, List.filterMap_nil, calc_scenario2]
  · rw [overtimeMinutesQ, LUNCH_BREAK, WORK_HOURS, REST_TIME]; norm_num

/-- C1 witness: the amended theorem applied to the scenario-1 record. -/
theorem C1_witness :
    calc_overtime_row ⟨"2024/03/01", "08:30:00~19:50:00"⟩ =
      some { date := "2024/03/01", clock_in := strTrim "08:30:00",
             clock_out := strTrim "19:50:00",
             total_minutes := truncQ (totalMinutesQ (effectiveStart 30600) 71400),
             overtime_hours := max 0 (min 4 (roundPy1
               ((totalMinutesQ (effectiveStart 30600) 71400 - 70 - 480 - 30) / 60))) } :=
  C1_overtime_formula_and_scenarios.1 ⟨"2024/03/01", "08:30:00~19:50:00"⟩ (2024, 3, 1)
    "08:30:00" "19:50:00" 30600 71400 (by decide) (by decide) (by decide) (by decide)

/-- C2: the calculator's effective start is min(clock_in, 09:00); a parseable
    record's emitted total uses that minimum; clock-in 08:30 gives 08:30 and
    clock-in 09:30 gives 09:00. -/
theorem C2_effective_start_min :
    (∀ st : ℤ, effectiveStart st = min st standardStartSec) ∧
    (∀ (r : RawPunchRecord) (d : Nat × Nat × Nat) (t0 t1 : String) (st en : ℤ),
      parseDate r.date = some d → splitTimeRange r.time_range = [t0, t1] →
      parseTime (strTrim t0) = some st → parseTime (strTrim t1) = some en →
      ∃ row, calc_overtime_row r = some row ∧
        row.total_minutes = truncQ (totalMinutesQ (min st standardStartSec) en)) ∧
    effectiveStart 30600 = 30600 ∧ effectiveStart 34200 = 32400 := by
  refine ⟨effectiveStart_eq_min, ?_, by decide, by decide⟩
  intro r d t0 t1 st en hd hs h0 h1
  refine ⟨_, calc_row_eq r d t0 t1 st en hd hs h0 h1, ?_⟩
  show truncQ (totalMinutesQ (effectiveStart st) en) = _
  rw [effectiveStart_eq_min]

/-- C2 witness: the theorem applied to the scenario-2 record (clock-in 09:30,
    so the minimum replaces it by 09:00). -/
theorem C2_witness :
    effectiveStart 34200 = 32400 ∧
    ∃ row, calc_overtime_row ⟨"2024/03/02", "09:30:00~18:30:00"⟩ = some row ∧
      row.total_minutes = truncQ (totalMinutesQ (min 34200 standardStartSec) 66600) :=
  ⟨C2_effective_start_min.2.2.2,
   C2_effective_start_min.2.1 ⟨"2024/03/02", "09:30:00~18:30:00"⟩ (2024, 3, 2)
     "09:30:00" "18:30:00" 34200 66600 (by decide) (by decide) (by decide) (by decide)⟩

/-- C9 counterexample: for the record 09:00:00~08:59:30 the clock-out
    (32370 s) is earlier than the effective start (32400 s), yet the emitted
    row's total_minutes is 0 — not negative as the claim states (int()
    truncates −0.5 toward zero). -/
theorem C9_counterexample :
    parseTime "09:00:00" = some 32400 ∧ parseTime "08:59:30" = some 32370 ∧
    (32370 : ℤ) < effectiveStart 32400 ∧
    calculate_overtime [⟨"2024/03/01", "09:00:00~08:59:30"⟩] =
      [{ date := "2024/03/01", clock_in := "09:00:00", clock_out := "08:59:30",
         total_minutes := 0, overtime_hours := 0 }] := by
  refine ⟨by decide, by decide, by decide, ?_⟩
  have h := calc_row_eq ⟨"2024/03/01", "09:00:00~08:59:30"⟩ (2024, 3, 1)
    "09:00:00" "08:59:30" 32400 32370 (by decide) (by decide) (by decide) (by decide)
  have e1 : effectiveStart 32400 = 32400 := by decide
  have e2 : totalMinutesQ 32400 32370 = -1 / 2 := by rw [totalMinutesQ]; norm_num
  have e3 : truncQ (-1 / 2 : ℚ) = 0 := by
    rw [truncQ, if_neg (by norm_num)]; norm_num [Int.ceil_eq_iff]
  have e4 : overtimeMinutesQ (-1 / 2) = -1161 / 2 := by
    rw [overtimeMinutesQ, LUNCH_BREAK, WORK_HOURS, REST_TIME]; norm_num
  have e5 : ⌊(-1161 / 12 : ℚ)⌋ = -97 := by norm_num [Int.floor_eq_iff]
  have e6 : roundPy1 (-1161 / 2 / 60) = -97 / 10 := by
    rw [roundPy1, show (10 : ℚ) * (-1161 / 2 / 60) = -1161 / 12 by norm_num, rhe, e5,
      if_pos (by norm_num)]
    norm_num
  have e7 : overtimeHoursQ (-1161 / 2) = 0 := by
    rw [overtimeHoursQ, e6, clampOvertime, if_pos (by norm_num)]
  have s1 : strTrim "09:00:00" = "09:00:00" := by decide
  have s2 : strTrim "08:59:30" = "08:59:30" := by decide
  simp only [calculate_overtime, List.filterMap_cons, List.filterMap_nil, h, e1, e2,
    e3, e4, e7, s1, s2]

/-- C9 (amended: the emitted total_minutes is non-positive, and negative only
    when the clock-out precedes the effective start by a full minute or more):
    both ends parse on the record's own date with no overnight wrap, the row is
    still emitted, and its overtime_hours is clamped to 0. -/
theorem C9_no_wraparound :
    ∀ (r : RawPunchRecord) (d : Nat × Nat × Nat) (t0 t1 : String) (st en : ℤ),
      parseDate r.date = some d → splitTimeRange r.time_range = [t0, t1] →
      parseTime (strTrim t0) = some st → parseTime (strTrim t1) = some en →
      en < effectiveStart st →
      ∃ row, calc_overtime_row r = some row ∧ row.total_minutes ≤ 0 ∧
        row.overtime_hours = 0 := by
  intro r d t0 t1 st en hd hs h0 h1 hlt
  have hsec : ((en - effectiveStart st : ℤ) : ℚ) ≤ -1 := by
    have h' : en - effectiveStart st ≤ -1 := by omega
    exact_mod_cast h'
  have h60 : (0 : ℚ) < 60 := by norm_num
  have hT : totalMinutesQ (effectiveStart st) en ≤ (-1 : ℚ) / 60 := by
    rw [totalMinutesQ]
    exact (div_le_div_iff_of_pos_right h60).mpr hsec
  have hom : overtimeMinutesQ (totalMinutesQ (effectiveStart st) en) ≤ -580 := by
    rw [overtimeMinutesQ, LUNCH_BREAK, WORK_HOURS, REST_TIME]; linarith
  refine ⟨_, calc_row_eq r d t0 t1 st en hd hs h0 h1, ?_, ?_⟩
  · show truncQ (totalMinutesQ (effectiveStart st) en) ≤ 0
    exact truncQ_nonpos (by linarith)
  · show overtimeHoursQ (overtimeMinutesQ (totalMinutesQ (effectiveStart st) en)) = 0
    set om := overtimeMinutesQ (totalMinutesQ (effectiveStart st) en) with hom'
    have hx : om / 60 ≤ (-580 : ℚ) / 60 := (div_le_div_iff_of_pos_right h60).mpr hom
    have h10 : (10 : ℚ) * (om / 60) ≤ 10 * ((-580 : ℚ) / 60) :=
      mul_le_mul_of_nonneg_left hx (by norm_num)
    have hr := rhe_le (10 * (om / 60))
    have hneg : ((rhe (10 * (om / 60)) : ℤ) : ℚ) < 0 := by
      have hnum : (10 : ℚ) * ((-580 : ℚ) / 60) + 1 < 0 := by norm_num
      linarith
    rw [overtimeHoursQ, roundPy1, clampOvertime,
      if_pos (div_neg_of_neg_of_pos hneg (by norm_num))]

/-- C9 witness: the amended theorem applied to a record clocking out a full
    hour before its effective start. -/
theorem C9_witness :
    ∃ row, calc_overtime_row ⟨"2024/03/01", "10:00:00~08:00:00"⟩ = some row ∧
      row.total_minutes ≤ 0 ∧ row.overtime_hours = 0 :=
  C9_no_wraparound ⟨"2024/03/01", "10:00:00~08:00:00"⟩ (2024, 3, 1) "10:00:00"
    "08:00:00" 36000 28800 (by decide) (by decide) (by decide) (by decide) (by decide)

/- ------------------------------------------------------------------ -/
/- Helper lemmas about the deduplication step. -/

/-- Keys already seen remain seen. -/
theorem dedup_seen_mono : ∀ (rs : List RawPunchRecord) (seen : List String)
    (acc : List RawPunchRecord) (k : String),
    k ∈ seen → k ∈ (dedupStep seen acc rs).1 := by
  intro rs
  induction rs with
  | nil => intro seen acc k h; simpa [dedupStep] using h
  | cons r rs ih =>
    intro seen acc k h
    by_cases hk : recordKey r ∈ seen
    · simpa [dedupStep, hk] using ih seen acc k h
    · simp only [dedupStep, if_neg hk]
      exact ih _ _ _ (List.mem_cons_of_mem _ h)

/-- Every processed record's key ends up seen. -/
theorem dedup_keys_seen : ∀ (rs : List RawPunchRecord) (seen : List String)
    (acc : List RawPunchRecord) (r : RawPunchRecord),
    r ∈ rs → recordKey r ∈ (dedupStep seen acc rs).1 := by
  intro rs
  induction rs with
  | nil => intro seen acc r h; cases h
  | cons a rs ih =>
    intro seen acc r h
    rcases List.mem_cons.mp h with h | h
    · subst h
      by_cases hk : recordKey r ∈ seen
      · simp only [dedupStep, if_pos hk]
        exact dedup_seen_mono rs seen acc _ hk
      · simp only [dedupStep, if_neg hk]
        exact dedup_seen_mono rs _ _ _ (List.mem_cons_self _ _)
    · by_cases hk : recordKey a ∈ seen
      · simp only [dedupStep, if_pos hk]; exact ih _ _ _ h
      · simp only [dedupStep, if_neg hk]; exact ih _ _ _ h

/-- A batch all of whose keys are already seen changes nothing. -/
theorem dedup_fixed : ∀ (rs : List RawPunchRecord) (seen : List String)
    (acc : List RawPunchRecord),
    (∀ r ∈ rs, recordKey r ∈ seen) → dedupStep seen acc rs = (seen, acc) := by
  intro rs
  induction rs with
  | nil => intro seen acc _; rfl
  | cons a rs ih =>
    intro seen acc h
    simp only [dedupStep, if_pos (h a (List.mem_cons_self _ _))]
    exact ih seen acc (fun r hr => h r (List.mem_cons_of_mem _ hr))

/-- Accumulated records are never dropped. -/
theorem dedup_acc_mono : ∀ (rs : List RawPunchRecord) (seen : List String)
    (acc : List RawPunchRecord) (x : RawPunchRecord),
    x ∈ acc → x ∈ (dedupStep seen acc rs).2 := by
  intro rs
  induction rs with
  | nil => intro seen acc x h; simpa [dedupStep] using h
  | cons a rs ih =>
    intro seen acc x h
    by_cases hk : recordKey a ∈ seen
    · simp only [dedupStep, if_pos hk]; exact ih _ _ _ h
    · simp only [dedupStep, if_neg hk]
      exact ih _ _ _ (List.mem_append_left _ h)

/-- Every finally seen key was initially seen or belongs to a result record. -/
theorem dedup_seen_sub : ∀ (rs : List RawPunchRecord) (seen : List String)
    (acc : List RawPunchRecord) (k : String),
    k ∈ (dedupStep seen acc rs).1 →
    k ∈ seen ∨ k ∈ (dedupStep seen acc rs).2.map recordKey := by
  intro rs
  induction rs with
  | nil => intro seen acc k h; exact Or.inl (by simpa [dedupStep] using h)
  | cons a rs ih =>
    intro seen acc k h
    by_cases hk : recordKey a ∈ seen
    · simp only [dedupStep, if_pos hk] at h ⊢
      exact ih _ _ _ h
    · simp only [dedupStep, if_neg hk] at h ⊢
      rcases ih _ _ _ h with h' | h'
      · rcases List.mem_cons.mp h' with h'' | h''
        · subst h''
          refine Or.inr (List.mem_map.mpr ⟨a, ?_, rfl⟩)
          exact dedup_acc_mono rs _ _ _ (List.mem_append_right _ (List.mem_singleton.mpr rfl))
        · exact Or.inl h''
      · exact Or.inr h'

/-- The result keys stay pairwise distinct when the accumulator's keys are
    distinct and all marked seen. -/
theorem dedup_nodup : ∀ (rs : List RawPunchRecord) (seen : List String)
    (acc : List RawPunchRecord),
    (acc.map recordKey).Nodup → (∀ k ∈ acc.map recordKey, k ∈ seen) →
    ((dedupStep seen acc rs).2.map recordKey).Nodup := by
  intro rs
  induction rs with
  | nil => intro seen acc h1 _; simpa [dedupStep] using h1
  | cons a rs ih =>
    intro seen acc h1 h2
    by_cases hk : recordKey a ∈ seen
    · simp only [dedupStep, if_pos hk]; exact ih _ _ h1 h2
    · simp only [dedupStep, if_neg hk]
      refine ih _ _ ?_ ?_
      · rw [List.map_append]
        refine List.nodup_append.mpr ⟨h1, List.nodup_singleton _, ?_⟩
        intro k hkacc hksing
        rcases List.mem_singleton.mp (by simpa using hksing) with h'
        exact hk (h' ▸ h2 k hkacc)
      · intro k hk'
        rw [List.map_append] at hk'
        rcases List.mem_append.mp hk' with h' | h'
        · exact List.mem_cons_of_mem _ (h2 k h')
        · simp only [List.map_cons, List.map_nil, List.mem_singleton] at h'
          exact h' ▸ List.mem_cons_self _ _

/-- C5: the deduplication step is idempotent (feeding a page's records twice
    equals feeding them once), the accumulated set never holds two records
    with the same composite key, every fed record is represented by its key,
    and swapping two records with identical date and time_range leaves the
    result unchanged. -/
theorem C5_dedup_idempotent :
    (∀ (seen : List String) (acc rs : List RawPunchRecord),
      dedupStep (dedupStep seen acc rs).1 (dedupStep seen acc rs).2 rs =
        dedupStep seen acc rs) ∧
    (∀ rs : List RawPunchRecord, ((dedupStep [] [] rs).2.map recordKey).Nodup) ∧
    (∀ (rs : List RawPunchRecord) (r : RawPunchRecord), r ∈ rs →
      recordKey r ∈ (dedupStep [] [] rs).2.map recordKey) ∧
    (∀ (seen : List String) (acc : List RawPunchRecord) (r1 r2 : RawPunchRecord)
      (rest : List RawPunchRecord), r1.date = r2.date → r1.time_range = r2.time_range →
      dedupStep seen acc (r1 :: r2 :: rest) = dedupStep seen acc (r2 :: r1 :: rest)) := by
  refine ⟨?_, ?_, ?_, ?_⟩
  · intro seen acc rs
    rw [dedup_fixed rs (dedupStep seen acc rs).1 (dedupStep seen acc rs).2
      (fun r hr => dedup_keys_seen rs seen acc r hr)]
  · intro rs
    exact dedup_nodup rs [] [] (by simp) (by simp)
  · intro rs r hr
    rcases dedup_seen_sub rs [] [] (recordKey r) (dedup_keys_seen rs [] [] r hr) with h | h
    · cases h
    · exact h
  · intro seen acc r1 r2 rest h1 h2
    have h12 : r1 = r2 := by cases r1; cases r2; simp_all
    rw [h12]

/-- C5 witness: the theorem applied to a page repeating one concrete record. -/
theorem C5_witness :
    recordKey recMar1 ∈ (dedupStep [] [] [recMar1, recMar1]).2.map recordKey ∧
    dedupStep [] [] [recMar1, recMar1] = dedupStep [] [] [recMar1, recMar1] :=
  ⟨C5_dedup_idempotent.2.2.1 [recMar1, recMar1] recMar1 (by decide),
   C5_dedup_idempotent.2.2.2 [] [] recMar1 recMar1 [] rfl rfl⟩

/- ------------------------------------------------------------------ -/
/- Helper lemmas about the pagination walk. -/

/-- One loop iteration halts exactly when the next-page link is absent or the
    postback fails, returning the records accumulated so far. -/
theorem walkAux_halt (server : PostData → Option SoupDoc) (fuel : Nat)
    (soup : SoupDoc) (cur : Nat) (seen : List String) (acc : List RawPunchRecord)
    (f p : Nat)
    (h : has_next_page soup cur = false ∨ goto_next_page soup server (cur + 1) = none) :
    walkAux server (fuel + 1) soup cur seen acc f p =
      ⟨(dedupStep seen acc (parse_attendance_table soup)).2, f, p + 1⟩ := by
  rcases h with h | h
  · simp [walkAux, h]
  · by_cases hn : has_next_page soup cur
    · simp [walkAux, hn, h]
    · simp [walkAux, hn]

/-- One loop iteration continues to the postback's response whenever the link
    is present and the postback succeeds — independently of the page's parsed
    records. -/
theorem walkAux_continue (server : PostData → Option SoupDoc) (fuel : Nat)
    (soup : SoupDoc) (cur : Nat) (seen : List String) (acc : List RawPunchRecord)
    (f p : Nat) (next : SoupDoc) (h1 : has_next_page soup cur = true)
    (h2 : goto_next_page soup server (cur + 1) = some next) :
    walkAux server (fuel + 1) soup cur seen acc f p =
      walkAux server fuel next (cur + 1)
        (dedupStep seen acc (parse_attendance_table soup)).1
        (dedupStep seen acc (parse_attendance_table soup)).2 (f + 1) (p + 1) := by
  simp [walkAux, h1, h2]

/-- The loop body runs at most `fuel` more times. -/
theorem walk_processed_le : ∀ (fuel : Nat) (server : PostData → Option SoupDoc)
    (soup : SoupDoc) (cur : Nat) (seen : List String) (acc : List RawPunchRecord)
    (f p : Nat), (walkAux server fuel soup cur seen acc f p).processed ≤ p + fuel := by
  intro fuel
  induction fuel with
  | zero => intro server soup cur seen acc f p; simp [walkAux]
  | succ k ih =>
    intro server soup cur seen acc f p
    by_cases hn : has_next_page soup cur
    · cases hg : goto_next_page soup server (cur + 1) with
      | none =>
        rw [walkAux_halt server k soup cur seen acc f p (Or.inr hg)]
        show p + 1 ≤ p + (k + 1)
        omega
      | some next =>
        rw [walkAux_continue server k soup cur seen acc f p next hn hg]
        have := ih server next (cur + 1)
          (dedupStep seen acc (parse_attendance_table soup)).1
          (dedupStep seen acc (parse_attendance_table soup)).2 (f + 1) (p + 1)
        omega
    · rw [walkAux_halt server k soup cur seen acc f p (Or.inl (by simpa using hn))]
      show p + 1 ≤ p + (k + 1)
      omega

/-- A walk over pages 1..N whose pages up to N−1 offer the next link and carry
    a viewstate, where the server serves page j on the `Page$j` directive and
    page N offers no link, fetches and processes exactly the remaining pages. -/
theorem walk_exact (server : PostData → Option SoupDoc) (pages : Nat → SoupDoc)
    (N : Nat)
    (hlink : ∀ j, 1 ≤ j → j < N → has_next_page (pages j) j = true)
    (hvs : ∀ j, 1 ≤ j → j < N → (pages j).viewstate.isSome = true)
    (hserver : ∀ j pd, 2 ≤ j → j ≤ N → pd.event_argument = "Page$" ++ toString j →
      server pd = some (pages j))
    (hlast : has_next_page (pages N) N = false) :
    ∀ (fuel cur : Nat) (seen : List String) (acc : List RawPunchRecord) (f p : Nat),
      1 ≤ cur → cur ≤ N → N + 1 ≤ cur + fuel →
      (walkAux server fuel (pages cur) cur seen acc f p).fetches = f + (N - cur) ∧
      (walkAux server fuel (pages cur) cur seen acc f p).processed = p + (N - cur) + 1 := by
  intro fuel
  induction fuel with
  | zero => intro cur seen acc f p h1 h2 h3; omega
  | succ k ih =>
    intro cur seen acc f p h1 h2 h3
    by_cases hc : cur = N
    · subst hc
      rw [walkAux_halt server k (pages cur) cur seen acc f p (Or.inl hlast)]
      constructor
      · show f = f + (cur - cur)
        omega
      · show p + 1 = p + (cur - cur) + 1
        omega
    · have hlt : cur < N := lt_of_le_of_ne h2 hc
      have hn := hlink cur h1 hlt
      obtain ⟨vs, hvs'⟩ := Option.isSome_iff_exists.mp (hvs cur h1 hlt)
      have hg : goto_next_page (pages cur) server (cur + 1) = some (pages (cur + 1)) := by
        simp only [goto_next_page, hvs']
        exact hserver (cur + 1) _ (by omega) (by omega) rfl
      rw [walkAux_continue server k (pages cur) cur seen acc f p (pages (cur + 1)) hn hg]
      obtain ⟨ihf, ihp⟩ := ih (cur + 1)
        (dedupStep seen acc (parse_attendance_table (pages cur))).1
        (dedupStep seen acc (parse_attendance_table (pages cur))).2 (f + 1) (p + 1)
        (by omega) (by omega) (by omega)
      constructor
      · rw [ihf]; omega
      · rw [ihp]; omega

/-- C3: every walk processes at most max_pages pages; a walk over N pages
    (N ≤ max_pages) whose page N carries no next-page link performs exactly N
    fetches and processes exactly N pages; and even when a next-page link is
    erroneously present on the last allowed page, the number of processed
    pages equals the budget. -/
theorem C3_pagination_budget :
    (∀ (server : PostData → Option SoupDoc) (max_pages : Nat) (first : SoupDoc),
      (get_attendance_data server max_pages first).processed ≤ max_pages) ∧
    (∀ (server : PostData → Option SoupDoc) (pages : Nat → SoupDoc) (max_pages N : Nat),
      1 ≤ N → N ≤ max_pages →
      (∀ j, 1 ≤ j → j < N → has_next_page (pages j) j = true) →
      (∀ j, 1 ≤ j → j < N → (pages j).viewstate.isSome = true) →
      (∀ j pd, 2 ≤ j → j ≤ N → pd.event_argument = "Page$" ++ toString j →
        server pd = some (pages j)) →
      has_next_page (pages N) N = false →
      (get_attendance_data server max_pages (pages 1)).fetches = N ∧
      (get_attendance_data server max_pages (pages 1)).processed = N) ∧
    has_next_page c3soup 2 = true ∧
    (get_attendance_data c3server 2 c3soup).processed = 2 := by
  refine ⟨?_, ?_, by decide, by decide⟩
  · intro server max_pages first
    have h := walk_processed_le max_pages server first 1 [] [] 1 0
    simpa [get_attendance_data] using h
  · intro server pages max_pages N h1 h2 hlink hvs hserver hlast
    obtain ⟨hf, hp⟩ := walk_exact server pages N hlink hvs hserver hlast max_pages 1
      [] [] 1 0 (le_refl 1) h1 (by omega)
    constructor
    · show (walkAux server max_pages (pages 1) 1 [] [] 1 0).fetches = N
      rw [hf]; omega
    · show (walkAux server max_pages (pages 1) 1 [] [] 1 0).processed = N
      rw [hp]; omega

/-- C3 witness: the theorem applied to a one-page walk with no next link. -/
theorem C3_witness :
    (get_attendance_data (fun _ => none) 5 tablelessPage).fetches = 1 ∧
    (get_attendance_data (fun _ => none) 5 tablelessPage).processed = 1 :=
  C3_pagination_budget.2.1 (fun _ => none) (fun _ => tablelessPage) 5 1 (by decide)
    (by decide) (fun _ h1 h2 => absurd h2 (Nat.not_lt.mpr h1))
    (fun _ h1 h2 => absurd h2 (Nat.not_lt.mpr h1))
    (fun _ _ h2 h1 _ => absurd (h2.trans h1) (by decide)) (by decide)

/-- C4 counterexample: page 2 of this walk has no grid (every matcher fails),
    so the extractor yields no rows there — and the walk does not continue to
    page 3, whose extractable record is never returned: it stops at page 2
    with the records accumulated so far. -/
theorem C4_counterexample :
    find_attendance_table tablelessPage = none ∧
    parse_attendance_table tablelessPage = [] ∧
    parse_attendance_table c4page3 = [recMar3] ∧
    get_attendance_data c4server 10 c4page1 = ⟨[recMar1], 2, 2⟩ ∧
    recMar3 ≠ recMar1 := by decide

/-- C4 (amended: the extractor indeed returns an empty sequence, not an
    error, when no matcher succeeds, and the walk never aborts on the miss —
    but whether it continues is decided independently by the next-page check's
    own document-wide, id-only grid lookup: when that lookup fails too — which
    an extractor miss implies whenever no tabs-2 div narrows the extractor's
    scope, and which always holds on a page with no tables — the walk ends at
    that page, returning the records accumulated so far; whereas a page whose
    gvWeb012-id grid sits outside the tabs-2 div misses extraction yet can
    still present a next-page link, and then the walk does continue). -/
theorem C4_extractor_miss :
    (∀ soup : SoupDoc, find_attendance_table soup = none →
      parse_attendance_table soup = []) ∧
    (∀ (soup : SoupDoc) (cur : Nat), find_table_by_id soup = none →
      has_next_page soup cur = false) ∧
    (∀ soup : SoupDoc, soup.hasTabs2 = false → find_attendance_table soup = none →
      find_table_by_id soup = none) ∧
    (∀ (server : PostData → Option SoupDoc) (fuel : Nat) (soup : SoupDoc) (cur : Nat)
      (seen : List String) (acc : List RawPunchRecord) (f p : Nat),
      has_next_page soup cur = false →
      walkAux server (fuel + 1) soup cur seen acc f p =
        ⟨(dedupStep seen acc (parse_attendance_table soup)).2, f, p + 1⟩) ∧
    find_attendance_table gapPage = none ∧
    parse_attendance_table gapPage = [] ∧
    has_next_page gapPage 1 = true ∧
    get_attendance_data gapServer 10 gapPage = ⟨[recMar2], 2, 2⟩ := by
  refine ⟨?_, ?_, ?_, ?_, by decide, by decide, by decide, by decide⟩
  · intro soup h; simp only [parse_attendance_table, h]
  · intro soup cur h; simp only [has_next_page, h]
  · intro soup htabs h
    simp only [find_attendance_table, searchTables, htabs, Bool.false_eq_true,
      if_false, find_table_by_id, allTables] at h ⊢
    cases hA : (soup.tables.map (·.2)).find? tableIdExact with
    | some t => simp [hA] at h
    | none =>
      cases hB : (soup.tables.map (·.2)).find? tableIdLoose with
      | some t => simp [hA, hB] at h
      | none => simp [hA, hB]
  · intro server fuel soup cur seen acc f p h
    exact walkAux_halt server fuel soup cur seen acc f p (Or.inl h)

/-- C4 witness: the amended theorem applied to the grid-less page. -/
theorem C4_witness :
    parse_attendance_table tablelessPage = [] ∧
    has_next_page tablelessPage 3 = false :=
  ⟨C4_extractor_miss.1 tablelessPage (by decide),
   C4_extractor_miss.2.1 tablelessPage 3 (by decide)⟩

/-- C6 counterexample: page 1 lacks both the viewstate-generator and the
    event-validation fields, yet the walk does not abort — it posts with empty
    strings for them and goes on to return page 2's record as well. -/
theorem C6_counterexample :
    c6page1.viewstate_generator = none ∧ c6page1.event_validation = none ∧
    get_attendance_data c6server 10 c6page1 = ⟨[recMar1, recMar2], 2, 2⟩ ∧
    recMar2 ≠ recMar1 := by decide

/-- C6 (amended: only the viewstate field is required — when it is missing the
    walk aborts at once and returns exactly the records accumulated so far,
    while missing generator or validation fields are replaced by empty strings
    and the postback proceeds). -/
theorem C6_token_abort :
    (∀ (soup : SoupDoc) (server : PostData → Option SoupDoc) (n : Nat),
      soup.viewstate = none → goto_next_page soup server n = none) ∧
    (∀ (server : PostData → Option SoupDoc) (fuel : Nat) (soup : SoupDoc) (cur : Nat)
      (seen : List String) (acc : List RawPunchRecord) (f p : Nat),
      soup.viewstate = none →
      walkAux server (fuel + 1) soup cur seen acc f p =
        ⟨(dedupStep seen acc (parse_attendance_table soup)).2, f, p + 1⟩) ∧
    (∀ (soup : SoupDoc) (server : PostData → Option SoupDoc) (n : Nat) (vs : String),
      soup.viewstate = some vs →
      goto_next_page soup server n =
        server { viewstate := vs,
                 viewstate_generator := soup.viewstate_generator.getD "",
                 event_validation := soup.event_validation.getD "",
                 event_target := "ctl00$ContentPlaceHolder1$gvWeb012",
                 event_argument := "Page$" ++ toString n }) := by
  refine ⟨?_, ?_, ?_⟩
  · intro soup server n h; simp only [goto_next_page, h]
  · intro server fuel soup cur seen acc f p h
    exact walkAux_halt server fuel soup cur seen acc f p
      (Or.inr (by simp only [goto_next_page, h]))
  · intro soup server n vs h; simp only [goto_next_page, h]

/-- C6 witness: the amended theorem applied to a viewstate-less page with a
    next-page link present. -/
theorem C6_witness :
    walkAux (fun _ => none) 3 tokenlessPage 1 [] [] 1 0 =
      ⟨(dedupStep [] [] (parse_attendance_table tokenlessPage)).2, 1, 1⟩ ∧
    has_next_page tokenlessPage 1 = true :=
  ⟨C6_token_abort.2.1 (fun _ => none) 2 tokenlessPage 1 [] [] 1 0 rfl, by decide⟩

/-- C7: the walk's continuation condition never inspects the parsed records —
    it continues exactly when the link is present and the postback succeeds,
    and stops within the budget only on a missing link or a failed postback
    (missing viewstate, or no response); when the server always responds and
    the viewstate is present, the postback succeeds; a concrete walk whose
    page 2 repeats page 1's records verbatim still reaches page 3. -/
theorem C7_termination_causes :
    (∀ (server : PostData → Option SoupDoc) (fuel : Nat) (soup : SoupDoc) (cur : Nat)
      (seen : List String) (acc : List RawPunchRecord) (f p : Nat) (next : SoupDoc),
      has_next_page soup cur = true → goto_next_page soup server (cur + 1) = some next →
      walkAux server (fuel + 1) soup cur seen acc f p =
        walkAux server fuel next (cur + 1)
          (dedupStep seen acc (parse_attendance_table soup)).1
          (dedupStep seen acc (parse_attendance_table soup)).2 (f + 1) (p + 1)) ∧
    (∀ (server : PostData → Option SoupDoc) (fuel : Nat) (soup : SoupDoc) (cur : Nat)
      (seen : List String) (acc : List RawPunchRecord) (f p : Nat),
      has_next_page soup cur = false ∨ goto_next_page soup server (cur + 1) = none →
      walkAux server (fuel + 1) soup cur seen acc f p =
        ⟨(dedupStep seen acc (parse_attendance_table soup)).2, f, p + 1⟩) ∧
    (∀ (server : PostData → Option SoupDoc) (soup : SoupDoc) (cur : Nat)
      (seen : List String) (acc : List RawPunchRecord) (f p : Nat),
      walkAux server 0 soup cur seen acc f p = ⟨acc, f, p⟩) ∧
    (∀ (soup : SoupDoc) (server : PostData → Option SoupDoc) (cur : Nat) (vs : String),
      (∀ pd, (server pd).isSome = true) → soup.viewstate = some vs →
      ∃ next, goto_next_page soup server (cur + 1) = some next) ∧
    parse_attendance_table c7page2 = parse_attendance_table c7page1 ∧
    get_attendance_data c7server 10 c7page1 = ⟨[recMar1, recMar3], 3, 3⟩ := by
  refine ⟨fun server fuel soup cur seen acc f p next h1 h2 =>
      walkAux_continue server fuel soup cur seen acc f p next h1 h2,
    fun server fuel soup cur seen acc f p h =>
      walkAux_halt server fuel soup cur seen acc f p h,
    fun server soup cur seen acc f p => rfl, ?_, by decide, by decide⟩
  intro soup server cur vs htotal hvs
  simp only [goto_next_page, hvs]
  exact Option.isSome_iff_exists.mp (htotal _)

/-- C7 witness: the theorem's continuation equation applied to the concrete
    first page (whose successor repeats its records). -/
theorem C7_witness :
    walkAux c7server 1 c7page1 1 [] [] 1 0 =
      walkAux c7server 0 c7page2 2
        (dedupStep [] [] (parse_attendance_table c7page1)).1
        (dedupStep [] [] (parse_attendance_table c7page1)).2 2 1 :=
  C7_termination_causes.1 c7server 0 c7page1 1 [] [] 1 0 c7page2 (by decide) (by decide)

/- ------------------------------------------------------------------ -/
/- Claims C8 and C10. -/

/-- C8: a status row whose date span is present but whose status span and both
    minutes spans are missing is still emitted, keyed by its date, with status
    未知 ("unknown") and 0.0 for each minutes field; concretely such a row
    parses into the table's dictionary. -/
theorem C8_status_defaults :
    (∀ (pf : String → Option ℚ) (i : Nat) (row : StatusRowNode) (ds : SpanNode),
      findSpanExact row (statusDateId i) = some ds →
      findSpanExact row (statusFlagId i) = none →
      findSpanExact row (statusOtMinuteId i) = none →
      findSpanExact row (statusChangeMinuteId i) = none →
      parse_status_row pf i row =
        some (strTrim ds.text,
          { date := strTrim ds.text, status := "未知",
            overtime_minutes := 0, change_minutes := 0 })) ∧
    parse_status_table (fun _ => none) c8soup =
      [("2024/03/05", { date := "2024/03/05", status := "未知",
                        overtime_minutes := 0, change_minutes := 0 })] := by
  constructor
  · intro pf i row ds hds hfl hot hch
    simp only [parse_status_row, hds, hfl, hot, hch]
  · decide

/-- C8 witness: the theorem applied to the concrete date-only row. -/
theorem C8_witness :
    parse_status_row (fun _ => none) 0 c8row =
      some (strTrim "2024/03/05",
        { date := strTrim "2024/03/05", status := "未知",
          overtime_minutes := 0, change_minutes := 0 }) :=
  C8_status_defaults.1 (fun _ => none) 0 c8row
    ⟨"ContentPlaceHolder1_gvFlow211_lblOT_Date_0", "2024/03/05"⟩
    (by decide) (by decide) (by decide) (by decide)

/-- A row yielding a record has at least three cells. -/
theorem extract_row_cells (row : RowNode) (rec : RawPunchRecord)
    (h : extract_row row = some rec) : 3 ≤ row.cells.length := by
  by_cases hc : row.cells.length < 3
  · rw [extract_row, if_pos hc] at h
    simp at h
  · omega

/-- C10: every emitted record comes from a data row with at least three td
    cells; a two-cell row whose first cell holds a valid date span and a valid
    time-range span is skipped, while the same data with three cells yields a
    record; and every record of the full extractor originates from such a
    row. -/
theorem C10_min_cells :
    (∀ (row : RowNode) (rec : RawPunchRecord), extract_row row = some rec →
      3 ≤ row.cells.length) ∧
    extract_row c10shortRow = none ∧
    extract_row c10fullRow = some ⟨"2024/03/01", "08:30:00~19:50:00"⟩ ∧
    (∀ (soup : SoupDoc) (rec : RawPunchRecord), rec ∈ parse_attendance_table soup →
      ∃ t row, find_attendance_table soup = some t ∧ row ∈ t.rows.filter isDataRow ∧
        extract_row row = some rec ∧ 3 ≤ row.cells.length) := by
  refine ⟨extract_row_cells, by decide, by decide, ?_⟩
  intro soup rec h
  cases hf : find_attendance_table soup with
  | none =>
    simp only [parse_attendance_table, hf] at h
    simp at h
  | some t =>
    simp only [parse_attendance_table, hf] at h
    obtain ⟨row, hrow, hex⟩ := List.mem_filterMap.mp h
    exact ⟨t, row, rfl, hrow, hex, extract_row_cells row rec hex⟩

/-- C10 witness: the theorem applied to the concrete three-cell row. -/
theorem C10_witness : 3 ≤ c10fullRow.cells.length :=
  C10_min_cells.1 c10fullRow ⟨"2024/03/01", "08:30:00~19:50:00"⟩ (by decide)
